import Mathlib

/-!
Shallow embedding of the scene-composition and lighting pipeline of the
snhu-cs-330 repository (Source/SceneManager.cpp and shaders/fragmentShader.glsl),
together with theorems settling the specification claims about it.

The material catalog and texture registry are modelled over exact rationals
(float colour values carry over verbatim as their decimal literals) and the
shader / transform mathematics over the reals.
-/

namespace SceneManager

/-- The `OBJECT_MATERIAL` struct: diffuse colour, specular colour, shininess
and the lookup tag (declared in SceneManager.h, used throughout
SceneManager.cpp). Colour components are modelled as rationals. -/
structure OBJECT_MATERIAL where
  diffuseColor : ℚ × ℚ × ℚ
  specularColor : ℚ × ℚ × ℚ
  shininess : ℚ
  tag : String
  deriving DecidableEq

/-- The scan loop inside `SceneManager::FindMaterial`: walk the catalog in
order; at the first entry whose tag matches, copy its diffuse colour, specular
colour and shininess into the out-parameter `material` (the entry's own tag is
not copied) and stop; otherwise leave `material` untouched. -/
def findMaterialLoop (catalog : List OBJECT_MATERIAL) (tag : String)
    (material : OBJECT_MATERIAL) : OBJECT_MATERIAL :=
  match catalog with
  | [] => material
  | m :: rest =>
      if m.tag = tag then
        { material with
            diffuseColor := m.diffuseColor
            specularColor := m.specularColor
            shininess := m.shininess }
      else
        findMaterialLoop rest tag material

/-- Embedding of `SceneManager::FindMaterial` (SceneManager.cpp lines 214-239).
Returns the boolean result paired with the final value of the by-reference
out-parameter `material`. Note the transcription is exact: after the scan loop
the function returns `true` unconditionally — the scan's `bFound` flag is not
the value returned. -/
def FindMaterial (catalog : List OBJECT_MATERIAL) (tag : String)
    (material : OBJECT_MATERIAL) : Bool × OBJECT_MATERIAL :=
  if catalog.length = 0 then
    (false, material)
  else
    (true, findMaterialLoop catalog tag material)

/-- The three `material.*` uniform values held by the shader program, as
written by `SetShaderMaterial`. -/
structure MaterialUniforms where
  diffuseColor : ℚ × ℚ × ℚ
  specularColor : ℚ × ℚ × ℚ
  shininess : ℚ
  deriving DecidableEq

/-- Embedding of `SceneManager::SetShaderMaterial` (SceneManager.cpp lines 345-361).
`localMaterial` stands for the value of the default-constructed local
`OBJECT_MATERIAL material;` variable (its colour/shininess fields are
indeterminate in the C++, hence an arbitrary parameter here); `uniforms` is
the prior uniform state. When `FindMaterial` reports `true` the three
uniforms are overwritten from the out-parameter, otherwise they are kept. -/
def SetShaderMaterial (catalog : List OBJECT_MATERIAL) (materialTag : String)
    (localMaterial : OBJECT_MATERIAL) (uniforms : MaterialUniforms) :
    MaterialUniforms :=
  if 0 < catalog.length then
    let r := FindMaterial catalog materialTag localMaterial
    if r.1 = true then
      ⟨r.2.diffuseColor, r.2.specularColor, r.2.shininess⟩
    else
      uniforms
  else
    uniforms

/-- One slot of the `m_textureIDs` registry array: a GPU texture name and the
tag it was registered under. -/
structure TextureEntry where
  ID : Nat
  tag : String
  deriving DecidableEq

/-- The slice of OpenGL state the texture-registry claims observe: the next
fresh texture name `glGenTextures` would hand out, how many names have been
generated, and how many textures have been deleted. -/
structure GLState where
  nextName : Nat
  genCount : Nat
  deleteCount : Nat
  deriving DecidableEq

/-- Model of `glGenTextures(1, &id)`: hand out the next fresh texture name. -/
def glGenTexture (gl : GLState) : Nat × GLState :=
  (gl.nextName,
   { gl with nextName := gl.nextName + 1, genCount := gl.genCount + 1 })

/-- What the external decoder (`stbi_load`) reports on success. -/
structure ImageData where
  width : Int
  height : Int
  colorChannels : Int
  deriving DecidableEq

/-- Result of `CreateGLTexture`: the boolean return value, the registry
(`m_textureIDs` up to `m_loadedTextures`) and the GL state afterwards. -/
structure CreateResult where
  ok : Bool
  registry : List TextureEntry
  gl : GLState
  deriving DecidableEq

/-- Embedding of `SceneManager::CreateGLTexture` (SceneManager.cpp lines 60-124), with the
decoder call abstracted to its result `decoded`. On decode failure it returns
`false` at once. On success it first calls `glGenTextures` and binds and
configures the new texture; only then does it inspect the channel count:
3 or 4 leads to the upload, mipmap generation, registry append and `true`;
any other count returns `false` with the registry untouched (the generated
texture name is left behind). -/
def CreateGLTexture (decoded : Option ImageData) (tag : String)
    (registry : List TextureEntry) (gl : GLState) : CreateResult :=
  match decoded with
  | none => ⟨false, registry, gl⟩
  | some image =>
      let g := glGenTexture gl
      let textureID := g.1
      let gl1 := g.2
      if image.colorChannels = 3 then
        ⟨true, registry ++ [⟨textureID, tag⟩], gl1⟩
      else if image.colorChannels = 4 then
        ⟨true, registry ++ [⟨textureID, tag⟩], gl1⟩
      else
        ⟨false, registry, gl1⟩

/-- The scan loop of `SceneManager::FindTextureID` (SceneManager.cpp lines
162-180): first entry whose tag matches yields its GPU texture name, else -1. -/
def findTextureIDLoop (registry : List TextureEntry) (tag : String) : Int :=
  match registry with
  | [] => -1
  | e :: rest => if e.tag = tag then (e.ID : Int) else findTextureIDLoop rest tag

/-- Embedding of `SceneManager::FindTextureID`. -/
def FindTextureID (registry : List TextureEntry) (tag : String) : Int :=
  findTextureIDLoop registry tag

/-- The scan loop of `SceneManager::FindTextureSlot` (SceneManager.cpp lines
188-206), carrying the running `index`: first entry whose tag matches yields
its slot index, else -1. -/
def findTextureSlotLoop (index : Nat) (registry : List TextureEntry)
    (tag : String) : Int :=
  match registry with
  | [] => -1
  | e :: rest =>
      if e.tag = tag then (index : Int)
      else findTextureSlotLoop (index + 1) rest tag

/-- Embedding of `SceneManager::FindTextureSlot`. -/
def FindTextureSlot (registry : List TextureEntry) (tag : String) : Int :=
  findTextureSlotLoop 0 registry tag

/-- Embedding of `SceneManager::DestroyGLTextures` (SceneManager.cpp lines 148-154): for
each registered entry, in order, call `glGenTextures(1, &m_textureIDs[i].ID)`,
overwriting the stored name with a fresh one. No delete call is ever issued. -/
def DestroyGLTextures (registry : List TextureEntry) (gl : GLState) :
    List TextureEntry × GLState :=
  match registry with
  | [] => ([], gl)
  | e :: rest =>
      let g := glGenTexture gl
      let r := DestroyGLTextures rest g.2
      ({ e with ID := g.1 } :: r.1, r.2)

/-- Specification-side lookup: index of the first entry whose tag matches,
scanning in registration order (`none` when absent). -/
def firstMatchIdx (registry : List TextureEntry) (tag : String) : Option Nat :=
  match registry with
  | [] => none
  | e :: rest =>
      if e.tag = tag then some 0
      else (firstMatchIdx rest tag).map (· + 1)

/-- Specification-side lookup: the first entry whose tag matches, scanning in
registration order. -/
def firstMatchEntry (registry : List TextureEntry) (tag : String) :
    Option TextureEntry :=
  match registry with
  | [] => none
  | e :: rest => if e.tag = tag then some e else firstMatchEntry rest tag

/-- The `"wood"` material defined by `DefineObjectMaterials`. -/
def woodMaterial : OBJECT_MATERIAL :=
  ⟨(1/5, 1/5, 3/10), (0, 0, 0), 1/10, "wood"⟩

end SceneManager

namespace FragmentShader

/-- GLSL `vec2` over the reals. -/
abbrev Vec2 := Fin 2 → ℝ

/-- GLSL `vec3` over the reals; `*` is the componentwise product, `•` the
float-times-vector product, both as in GLSL. -/
abbrev Vec3 := Fin 3 → ℝ

/-- GLSL `vec4` over the reals. -/
abbrev Vec4 := Fin 4 → ℝ

/-- GLSL `dot` on `vec3`. -/
def dot3 (a b : Vec3) : ℝ := a 0 * b 0 + a 1 * b 1 + a 2 * b 2

noncomputable section

/-- GLSL `length` on `vec3`. -/
def length3 (v : Vec3) : ℝ := Real.sqrt (dot3 v v)

/-- GLSL `normalize` on `vec3`: the vector divided by its length. -/
def normalize3 (v : Vec3) : Vec3 := (1 / length3 v) • v

/-- GLSL `reflect(I, N) = I - 2 * dot(N, I) * N`. -/
def reflect3 (i n : Vec3) : Vec3 := i - (2 * dot3 n i) • n

/-- GLSL `clamp(x, minVal, maxVal) = min(max(x, minVal), maxVal)`. -/
def clampGL (x minVal maxVal : ℝ) : ℝ := min (max x minVal) maxVal

/-- GLSL `vec3(v)` applied to a `vec4`: drop the alpha component. -/
def toVec3 (v : Vec4) : Vec3 := ![v 0, v 1, v 2]

/-- The `Material` uniform struct of fragmentShader.glsl. -/
structure Material where
  diffuseColor : Vec3
  specularColor : Vec3
  shininess : ℝ

/-- The `DirectionalLight` uniform struct of fragmentShader.glsl. -/
structure DirectionalLight where
  direction : Vec3
  ambient : Vec3
  diffuse : Vec3
  specular : Vec3
  bActive : Bool

/-- The `PointLight` uniform struct of fragmentShader.glsl. -/
structure PointLight where
  position : Vec3
  ambient : Vec3
  diffuse : Vec3
  specular : Vec3
  bActive : Bool

/-- The `SpotLight` uniform struct of fragmentShader.glsl. -/
structure SpotLight where
  position : Vec3
  direction : Vec3
  cutOff : ℝ
  outerCutOff : ℝ
  constant : ℝ
  linear : ℝ
  quadratic : ℝ
  ambient : Vec3
  diffuse : Vec3
  specular : Vec3
  bActive : Bool

/-- The uniform state read by fragmentShader.glsl. The bound texture is
modelled as the sampling function `objectTexture` from (scaled) texture
coordinates to RGBA colours. -/
structure ShaderEnv where
  bUseTexture : Bool
  bUseLighting : Bool
  objectColor : Vec4
  viewPosition : Vec3
  directionalLight : DirectionalLight
  pointLights : Fin 5 → PointLight
  spotLight : SpotLight
  material : Material
  objectTexture : Vec2 → Vec4
  UVscale : Vec2

/-- Embedding of `CalcDirectionalLight` of fragmentShader.glsl (lines 129-156). `scaled`
is the global `fragmentTextureCoordinateScaled`. -/
def CalcDirectionalLight (env : ShaderEnv) (light : DirectionalLight)
    (normal viewDir : Vec3) (scaled : Vec2) : Vec3 :=
  let lightDirection := normalize3 (-light.direction)
  let diff := max (dot3 normal lightDirection) 0
  let reflectDir := reflect3 (-lightDirection) normal
  let spec := Real.rpow (max (dot3 viewDir reflectDir) 0) env.material.shininess
  if env.bUseTexture = true then
    light.ambient * toVec3 (env.objectTexture scaled)
      + diff • (light.diffuse * env.material.diffuseColor * toVec3 (env.objectTexture scaled))
      + spec • (light.specular * env.material.specularColor * toVec3 (env.objectTexture scaled))
  else
    light.ambient * toVec3 env.objectColor
      + diff • (light.diffuse * env.material.diffuseColor * toVec3 env.objectColor)
      + spec • (light.specular * env.material.specularColor * toVec3 env.objectColor)

/-- Embedding of `CalcPointLight` of fragmentShader.glsl (lines 159-188). The specular
term carries no texture or base-colour factor in either branch. -/
def CalcPointLight (env : ShaderEnv) (light : PointLight)
    (normal fragPos viewDir : Vec3) (scaled : Vec2) : Vec3 :=
  let lightDir := normalize3 (light.position - fragPos)
  let diff := max (dot3 normal lightDir) 0
  let reflectDir := reflect3 (-lightDir) normal
  let specularComponent :=
    Real.rpow (max (dot3 viewDir reflectDir) 0) env.material.shininess
  if env.bUseTexture = true then
    light.ambient * toVec3 (env.objectTexture scaled)
      + diff • (light.diffuse * env.material.diffuseColor * toVec3 (env.objectTexture scaled))
      + specularComponent • (light.specular * env.material.specularColor)
  else
    light.ambient * toVec3 env.objectColor
      + diff • (light.diffuse * env.material.diffuseColor * toVec3 env.objectColor)
      + specularComponent • (light.specular * env.material.specularColor)

/-- Embedding of `CalcSpotLight` of fragmentShader.glsl (lines 191-228): the three Phong
terms are computed exactly as for a directional light based at the spot
position, then each is multiplied by `attenuation * intensity`. -/
def CalcSpotLight (env : ShaderEnv) (light : SpotLight)
    (normal fragPos viewDir : Vec3) (scaled : Vec2) : Vec3 :=
  let lightDir := normalize3 (light.position - fragPos)
  let diff := max (dot3 normal lightDir) 0
  let reflectDir := reflect3 (-lightDir) normal
  let spec := Real.rpow (max (dot3 viewDir reflectDir) 0) env.material.shininess
  let dist := length3 (light.position - fragPos)
  let attenuation :=
    1 / (light.constant + light.linear * dist + light.quadratic * (dist * dist))
  let theta := dot3 lightDir (normalize3 (-light.direction))
  let epsilon := light.cutOff - light.outerCutOff
  let intensity := clampGL ((theta - light.outerCutOff) / epsilon) 0 1
  let ambient : Vec3 :=
    if env.bUseTexture = true then
      light.ambient * toVec3 (env.objectTexture scaled)
    else
      light.ambient * toVec3 env.objectColor
  let diffuse : Vec3 :=
    if env.bUseTexture = true then
      diff • (light.diffuse * env.material.diffuseColor * toVec3 (env.objectTexture scaled))
    else
      diff • (light.diffuse * env.material.diffuseColor * toVec3 env.objectColor)
  let specular : Vec3 :=
    if env.bUseTexture = true then
      spec • (light.specular * env.material.specularColor * toVec3 (env.objectTexture scaled))
    else
      spec • (light.specular * env.material.specularColor * toVec3 env.objectColor)
  (attenuation * intensity) • ambient + (attenuation * intensity) • diffuse
    + (attenuation * intensity) • specular

/-- Embedding of `main` of fragmentShader.glsl (lines 72-126), as the function from the
uniform state and the per-fragment inputs to `fragmentColor`. -/
def main (env : ShaderEnv) (fragmentPosition fragmentVertexNormal : Vec3)
    (fragmentTextureCoordinate : Vec2) : Vec4 :=
  let scaled := fragmentTextureCoordinate * env.UVscale
  if env.bUseLighting = true then
    let norm := normalize3 fragmentVertexNormal
    let viewDir := normalize3 (env.viewPosition - fragmentPosition)
    let phongResult : Vec3 :=
      (if env.directionalLight.bActive = true then
        CalcDirectionalLight env env.directionalLight norm viewDir scaled
      else 0)
      + (∑ i : Fin 5,
          if (env.pointLights i).bActive = true then
            CalcPointLight env (env.pointLights i) norm fragmentPosition viewDir scaled
          else 0)
      + (if env.spotLight.bActive = true then
          CalcSpotLight env env.spotLight norm fragmentPosition viewDir scaled
        else 0)
    if env.bUseTexture = true then
      ![phongResult 0, phongResult 1, phongResult 2, env.objectTexture scaled 3]
    else
      ![phongResult 0, phongResult 1, phongResult 2, env.objectColor 3]
  else
    if env.bUseTexture = true then
      env.objectTexture scaled
    else
      env.objectColor

/-- Specification-side: the surface colour a light contribution is scaled
by — the sampled texture colour when texturing is on, the flat base colour
otherwise. -/
def surfaceColor (env : ShaderEnv) (scaled : Vec2) : Vec3 :=
  if env.bUseTexture = true then toVec3 (env.objectTexture scaled)
  else toVec3 env.objectColor

/-- Specification-side point-light contribution, written as a function of the
light *direction* alone (so the light's position can enter only through its
normalized direction — no distance term): ambient and diffuse are scaled by
the surface colour, the specular term is
`lightSpecular * pow(max(dot(viewDir, reflectDir), 0), shininess) * materialSpecular`
with no surface-colour factor. -/
def pointLightSpec (env : ShaderEnv) (light : PointLight) (lightDir : Vec3)
    (normal viewDir : Vec3) (scaled : Vec2) : Vec3 :=
  light.ambient * surfaceColor env scaled
    + max (dot3 normal lightDir) 0 •
        (light.diffuse * env.material.diffuseColor * surfaceColor env scaled)
    + Real.rpow (max (dot3 viewDir (reflect3 (-lightDir) normal)) 0)
        env.material.shininess •
        (light.specular * env.material.specularColor)

/-- Specification-side spot-light attenuation factor,
`1 / (constant + linear * dist + quadratic * dist^2)`. -/
def spotAttenuation (light : SpotLight) (dist : ℝ) : ℝ :=
  1 / (light.constant + light.linear * dist + light.quadratic * dist ^ 2)

/-- Specification-side spot-light cone intensity,
`clamp((cosTheta - outerCutOff) / (cutOff - outerCutOff), 0, 1)`. -/
def spotIntensity (light : SpotLight) (cosTheta : ℝ) : ℝ :=
  clampGL ((cosTheta - light.outerCutOff) / (light.cutOff - light.outerCutOff)) 0 1

/-- Specification-side unattenuated spot-light Phong sum: all three terms
scaled by the surface colour. -/
def spotLightBase (env : ShaderEnv) (light : SpotLight)
    (normal fragPos viewDir : Vec3) (scaled : Vec2) : Vec3 :=
  let lightDir := normalize3 (light.position - fragPos)
  light.ambient * surfaceColor env scaled
    + max (dot3 normal lightDir) 0 •
        (light.diffuse * env.material.diffuseColor * surfaceColor env scaled)
    + Real.rpow (max (dot3 viewDir (reflect3 (-lightDir) normal)) 0)
        env.material.shininess •
        (light.specular * env.material.specularColor * surfaceColor env scaled)

end

end FragmentShader

namespace GlmTransform

open FragmentShader

noncomputable section

/-- Embedding of `glm::radians`: degrees to radians. -/
def radians (degrees : ℝ) : ℝ := degrees * (Real.pi / 180)

/-- Embedding of `glm::scale(v)` as a 4x4 matrix acting on column vectors. -/
def scale (v : Vec3) : Matrix (Fin 4) (Fin 4) ℝ :=
  Matrix.of
    ![![v 0, 0, 0, 0],
      ![0, v 1, 0, 0],
      ![0, 0, v 2, 0],
      ![0, 0, 0, 1]]

/-- Embedding of `glm::translate(v)` as a 4x4 matrix acting on column vectors. -/
def translate (v : Vec3) : Matrix (Fin 4) (Fin 4) ℝ :=
  Matrix.of
    ![![1, 0, 0, v 0],
      ![0, 1, 0, v 1],
      ![0, 0, 1, v 2],
      ![0, 0, 0, 1]]

/-- Embedding of `glm::rotate(angle, v)` as a 4x4 matrix acting on column vectors: glm's
axis-angle rotation (glm/ext/matrix_transform.inl), with the axis normalized
first. Entry (row, col) here equals glm's column-major `Rotate[col][row]`. -/
def rotate (angle : ℝ) (v : Vec3) : Matrix (Fin 4) (Fin 4) ℝ :=
  let c := Real.cos angle
  let s := Real.sin angle
  let axis := normalize3 v
  let temp : Vec3 := (1 - c) • axis
  Matrix.of
    ![![c + temp 0 * axis 0, temp 1 * axis 0 - s * axis 2,
        temp 2 * axis 0 + s * axis 1, 0],
      ![temp 0 * axis 1 + s * axis 2, c + temp 1 * axis 1,
        temp 2 * axis 1 - s * axis 0, 0],
      ![temp 0 * axis 2 - s * axis 1, temp 1 * axis 2 + s * axis 0,
        c + temp 2 * axis 2, 0],
      ![0, 0, 0, 1]]

/-- Embedding of `SceneManager::SetTransformations` (SceneManager.cpp lines 247-277),
returning the `model` matrix it uploads:
`translation * rotationZ * rotationY * rotationX * scale`, each factor built
with glm exactly as in the source. -/
def SetTransformations (scaleXYZ : Vec3)
    (XrotationDegrees YrotationDegrees ZrotationDegrees : ℝ)
    (positionXYZ : Vec3) : Matrix (Fin 4) (Fin 4) ℝ :=
  let scaleM := scale scaleXYZ
  let rotationX := rotate (radians XrotationDegrees) ![1, 0, 0]
  let rotationY := rotate (radians YrotationDegrees) ![0, 1, 0]
  let rotationZ := rotate (radians ZrotationDegrees) ![0, 0, 1]
  let translation := translate positionXYZ
  translation * rotationZ * rotationY * rotationX * scaleM

/-- Specification-side: the textbook rotation matrix about the X axis. -/
def rotXSpec (t : ℝ) : Matrix (Fin 4) (Fin 4) ℝ :=
  Matrix.of
    ![![1, 0, 0, 0],
      ![0, Real.cos t, -Real.sin t, 0],
      ![0, Real.sin t, Real.cos t, 0],
      ![0, 0, 0, 1]]

/-- Specification-side: the textbook rotation matrix about the Y axis. -/
def rotYSpec (t : ℝ) : Matrix (Fin 4) (Fin 4) ℝ :=
  Matrix.of
    ![![Real.cos t, 0, Real.sin t, 0],
      ![0, 1, 0, 0],
      ![-Real.sin t, 0, Real.cos t, 0],
      ![0, 0, 0, 1]]

/-- Specification-side: the textbook rotation matrix about the Z axis. -/
def rotZSpec (t : ℝ) : Matrix (Fin 4) (Fin 4) ℝ :=
  Matrix.of
    ![![Real.cos t, -Real.sin t, 0, 0],
      ![Real.sin t, Real.cos t, 0, 0],
      ![0, 0, 1, 0],
      ![0, 0, 0, 1]]

/-- Specification-side model matrix, following the spec's words: composed as
`T * Rz * Ry * Rx * S` from the textbook axis rotations (angles in radians
converted from the given degrees), translation outermost, scale innermost. -/
def specModelMatrix (scaleXYZ : Vec3) (xDeg yDeg zDeg : ℝ)
    (positionXYZ : Vec3) : Matrix (Fin 4) (Fin 4) ℝ :=
  translate positionXYZ * rotZSpec (radians zDeg) * rotYSpec (radians yDeg)
    * rotXSpec (radians xDeg) * scale scaleXYZ

end

end GlmTransform

namespace SceneManager

/-- A stand-in for the indeterminate default-constructed local
`OBJECT_MATERIAL material;` of `SetShaderMaterial`. -/
def junkMaterial : OBJECT_MATERIAL := ⟨(9, 9, 9), (8, 8, 8), 7, ""⟩

/-- Some prior `material.*` uniform state, distinct from `junkMaterial`'s
field values. -/
def priorUniforms : MaterialUniforms := ⟨(1, 1, 1), (2, 2, 2), 3⟩

/-- A decoder result with an unsupported channel count (5). -/
def badDecode : Option ImageData := some ⟨8, 8, 5⟩

/-- An initial GL state: no names generated or deleted yet. -/
def gl0 : GLState := ⟨1, 0, 0⟩

/-- A registry entry tagged `"dup"` with texture name 5. -/
def entryDup1 : TextureEntry := ⟨5, "dup"⟩

/-- A second registry entry with the same tag `"dup"`, texture name 6. -/
def entryDup2 : TextureEntry := ⟨6, "dup"⟩

end SceneManager

namespace FragmentShader

noncomputable section

/-- A sample texture: every texel is solid black with alpha 1. -/
def sampleTexture : Vec2 → Vec4 := fun _ => ![0, 0, 0, 1]

/-- A sample directional light. -/
def sampleDirLight : DirectionalLight :=
  ⟨![0, 0, -1], ![1, 1, 1], ![1, 1, 1], ![1, 1, 1], true⟩

/-- A sample point light. -/
def samplePointLight : PointLight :=
  ⟨![3, 2, 1], ![1, 1, 1], ![1, 1, 1], ![1, 1, 1], true⟩

/-- A sample spot light with inner cutoff cosine 1/2 strictly above outer
cutoff cosine 1/4. -/
def sampleSpotLight : SpotLight :=
  ⟨![0, 5, 0], ![0, -1, 0], 1/2, 1/4, 1, 0, 0,
   ![1, 1, 1], ![1, 1, 1], ![1, 1, 1], true⟩

/-- An alternative directional light, differing from `sampleDirLight`. -/
def altDirLight : DirectionalLight :=
  ⟨![1, 0, 0], ![2, 0, 0], ![0, 2, 0], ![0, 0, 2], false⟩

/-- An alternative spot light, differing from `sampleSpotLight`. -/
def altSpotLight : SpotLight :=
  ⟨![9, 9, 9], ![1, 0, 0], 1, 0, 2, 3, 4,
   ![5, 5, 5], ![6, 6, 6], ![7, 7, 7], false⟩

/-- A sample uniform state with lighting disabled and texturing disabled. -/
def envNoLighting : ShaderEnv :=
  ⟨false, false, ![1/2, 1/4, 1/8, 1], ![0, 0, 10], sampleDirLight,
   fun _ => samplePointLight, sampleSpotLight, ⟨![1, 1, 1], ![1, 1, 1], 2⟩,
   sampleTexture, ![1, 1]⟩

end

end FragmentShader

namespace SceneManager

/-- Helper: the `FindTextureSlot` scan loop started at `index` returns
`index` plus the first-match offset, or -1 when no entry matches. -/
theorem findTextureSlotLoop_eq (tag : String) :
    ∀ (registry : List TextureEntry) (index : Nat),
      findTextureSlotLoop index registry tag =
        match firstMatchIdx registry tag with
        | some k => ((index + k : Nat) : Int)
        | none => -1 := by
  intro registry
  induction registry with
  | nil => intro index; rfl
  | cons e rest ih =>
      intro index
      by_cases h : e.tag = tag
      · simp [findTextureSlotLoop, firstMatchIdx, h]
      · rw [findTextureSlotLoop, firstMatchIdx]
        simp only [h, if_false, ih (index + 1)]
        cases hm : firstMatchIdx rest tag with
        | none => simp
        | some k =>
            simp only [hm, Option.map_some']
            push_cast
            ring

/-- Helper: the `FindTextureID` scan loop returns the first matching entry's
texture name, or -1 when no entry matches. -/
theorem findTextureIDLoop_eq (tag : String) :
    ∀ (registry : List TextureEntry),
      findTextureIDLoop registry tag =
        match firstMatchEntry registry tag with
        | some e => (e.ID : Int)
        | none => -1 := by
  intro registry
  induction registry with
  | nil => rfl
  | cons e rest ih =>
      by_cases h : e.tag = tag
      · simp [findTextureIDLoop, firstMatchEntry, h]
      · rw [findTextureIDLoop, firstMatchEntry]
        simp only [h, if_false, ih]

/-- C8: `FindTextureSlot` and `FindTextureID` scan the registry in
registration order, returning the first matching entry's slot index and
texture name respectively, and -1 when the registry is empty or the tag is
absent; in particular with two same-tag entries both retained, lookup returns
the first-registered entry's slot and name. -/
theorem findTextureSlot_findTextureID_first_match
    (registry : List TextureEntry) (tag : String) :
    (FindTextureSlot registry tag =
      match firstMatchIdx registry tag with
      | some k => (k : Int)
      | none => -1) ∧
    (FindTextureID registry tag =
      match firstMatchEntry registry tag with
      | some e => (e.ID : Int)
      | none => -1) ∧
    (∀ (e : TextureEntry) (rest : List TextureEntry), e.tag = tag →
      FindTextureSlot (e :: rest) tag = 0 ∧
      FindTextureID (e :: rest) tag = (e.ID : Int)) := by
  refine ⟨?_, findTextureIDLoop_eq tag registry, ?_⟩
  · rw [FindTextureSlot, findTextureSlotLoop_eq tag registry 0]
    cases firstMatchIdx registry tag <;> simp
  · intro e rest h
    constructor
    · simp [FindTextureSlot, findTextureSlotLoop, h]
    · simp [FindTextureID, findTextureIDLoop, h]

/-- Witness for C8: on a registry holding two entries both tagged `"dup"`
(names 5 then 6), lookup returns slot 0 and name 5 — the first-registered
entry. -/
theorem findTextureSlot_findTextureID_first_match_witness :
    FindTextureSlot (entryDup1 :: [entryDup2]) "dup" = 0 ∧
    FindTextureID (entryDup1 :: [entryDup2]) "dup" = (entryDup1.ID : Int) :=
  (findTextureSlot_findTextureID_first_match (entryDup1 :: [entryDup2])
    "dup").2.2 entryDup1 [entryDup2] rfl

/-- C10: `DestroyGLTextures` deletes nothing: the delete count is unchanged,
`glGenTextures` runs once per registered entry, the entry count and every tag
are unchanged, and each stored texture name is overwritten with the next
fresh name in sequence. -/
theorem destroyGLTextures_deletes_no_texture :
    ∀ (registry : List TextureEntry) (gl : GLState),
      (DestroyGLTextures registry gl).2.deleteCount = gl.deleteCount ∧
      (DestroyGLTextures registry gl).2.genCount
        = gl.genCount + registry.length ∧
      ((DestroyGLTextures registry gl).1).length = registry.length ∧
      ((DestroyGLTextures registry gl).1).map TextureEntry.tag
        = registry.map TextureEntry.tag ∧
      ((DestroyGLTextures registry gl).1).map TextureEntry.ID
        = List.range' gl.nextName registry.length := by
  intro registry
  induction registry with
  | nil => intro gl; simp [DestroyGLTextures]
  | cons e rest ih =>
      intro gl
      obtain ⟨h1, h2, h3, h4, h5⟩ :=
        ih { gl with nextName := gl.nextName + 1, genCount := gl.genCount + 1 }
      refine ⟨?_, ?_, ?_, ?_, ?_⟩
      · simpa [DestroyGLTextures, glGenTexture] using h1
      · simp [DestroyGLTextures, glGenTexture, h2]
        omega
      · simp [DestroyGLTextures, glGenTexture, h3]
      · simp [DestroyGLTextures, glGenTexture, h4]
      · simp [DestroyGLTextures, glGenTexture, h5, List.range'_succ]

/-- C1: evaluating `FindMaterial` on the non-empty catalog `[woodMaterial]`
with the absent tag `"stone"`: it returns `true` (found) with the
out-parameter untouched, where the claim expects the not-found result —
the scan's `bFound` flag is discarded and `true` is returned whenever the
catalog is non-empty. -/
theorem findMaterial_reports_found_for_absent_tag :
    FindMaterial [woodMaterial] "stone" junkMaterial = (true, junkMaterial) := by
  rfl

/-- C2: evaluating `SetShaderMaterial` on the non-empty catalog
`[woodMaterial]` with the absent tag `"stone"`: because `FindMaterial`
reports found, the three material uniforms are overwritten with the
indeterminate local values instead of keeping their prior values. -/
theorem setShaderMaterial_overwrites_for_absent_tag :
    SetShaderMaterial [woodMaterial] "stone" junkMaterial priorUniforms
      = ⟨(9, 9, 9), (8, 8, 8), 7⟩ ∧
    (⟨(9, 9, 9), (8, 8, 8), 7⟩ : MaterialUniforms) ≠ priorUniforms :=
  ⟨rfl, by decide⟩

/-- C3 counterexample: a successful decode with 5 channels makes
`CreateGLTexture` fail, yet a GPU texture name has been generated (the
`glGenTextures` call precedes the channel-count check), refuting "on every
failure no GPU texture resource is created". -/
theorem createGLTexture_channel_failure_creates_resource :
    (CreateGLTexture badDecode "gray" [] gl0).ok = false ∧
    (CreateGLTexture badDecode "gray" [] gl0).gl.genCount ≠ gl0.genCount := by
  decide

/-- C3 (amended): `CreateGLTexture` succeeds exactly when the decoder
succeeds with 3 or 4 channels; on every failure the registry is unchanged;
on decode failure no GPU texture is created, while an unsupported channel
count leaves one freshly generated texture name behind. -/
theorem createGLTexture_failure_characterization :
    ∀ (decoded : Option ImageData) (tag : String)
      (registry : List TextureEntry) (gl : GLState),
      ((CreateGLTexture decoded tag registry gl).ok = true ↔
        ∃ image, decoded = some image ∧
          (image.colorChannels = 3 ∨ image.colorChannels = 4)) ∧
      ((CreateGLTexture decoded tag registry gl).ok = false →
        (CreateGLTexture decoded tag registry gl).registry = registry) ∧
      (decoded = none → (CreateGLTexture decoded tag registry gl).gl = gl) ∧
      (∀ image, decoded = some image →
        (CreateGLTexture decoded tag registry gl).gl.genCount
          = gl.genCount + 1) := by
  intro decoded tag registry gl
  cases decoded with
  | none => simp [CreateGLTexture]
  | some image =>
      by_cases h3 : image.colorChannels = 3
      · simp [CreateGLTexture, glGenTexture, h3]
      · by_cases h4 : image.colorChannels = 4
        · simp [CreateGLTexture, glGenTexture, h3, h4]
        · simp [CreateGLTexture, glGenTexture, h3, h4]

/-- Witness for C3 (amended), at the concrete unsupported-channel input. -/
theorem createGLTexture_failure_characterization_witness :
    ((CreateGLTexture badDecode "gray" [] gl0).ok = true ↔
      ∃ image, badDecode = some image ∧
        (image.colorChannels = 3 ∨ image.colorChannels = 4)) ∧
    ((CreateGLTexture badDecode "gray" [] gl0).ok = false →
      (CreateGLTexture badDecode "gray" [] gl0).registry = []) ∧
    (badDecode = none → (CreateGLTexture badDecode "gray" [] gl0).gl = gl0) ∧
    (∀ image, badDecode = some image →
      (CreateGLTexture badDecode "gray" [] gl0).gl.genCount
        = gl0.genCount + 1) :=
  createGLTexture_failure_characterization badDecode "gray" [] gl0

end SceneManager

namespace FragmentShader

/-- C5: with `bUseLighting = false` the fragment output is the sampled
texture colour (texturing on) or the flat base colour (texturing off), and
replacing the entire light configuration — directional, point and spot
lights — changes nothing: lights have zero effect on the output. -/
theorem main_lighting_disabled_ignores_lights
    (env : ShaderEnv) (fragPos fragNormal : Vec3) (texCoord : Vec2)
    (dl : DirectionalLight) (pls : Fin 5 → PointLight) (sl : SpotLight)
    (h : env.bUseLighting = false) :
    main env fragPos fragNormal texCoord =
      (if env.bUseTexture = true then env.objectTexture (texCoord * env.UVscale)
       else env.objectColor) ∧
    main { env with
            directionalLight := dl
            pointLights := pls
            spotLight := sl } fragPos fragNormal texCoord
      = main env fragPos fragNormal texCoord := by
  constructor
  · simp [main, h]
  · simp [main, h]

/-- Witness for C5 at a concrete lighting-disabled uniform state and
fragment, with a fully different light configuration on the second run. -/
theorem main_lighting_disabled_ignores_lights_witness :
    envNoLighting.bUseLighting = false ∧
    (main envNoLighting ![0, 0, 0] ![0, 1, 0] ![0, 0] =
      (if envNoLighting.bUseTexture = true then
        envNoLighting.objectTexture (![0, 0] * envNoLighting.UVscale)
      else envNoLighting.objectColor) ∧
    main { envNoLighting with
            directionalLight := altDirLight
            pointLights := fun _ => samplePointLight
            spotLight := altSpotLight } ![0, 0, 0] ![0, 1, 0] ![0, 0]
      = main envNoLighting ![0, 0, 0] ![0, 1, 0] ![0, 0]) :=
  ⟨rfl, main_lighting_disabled_ignores_lights envNoLighting ![0, 0, 0]
    ![0, 1, 0] ![0, 0] altDirLight (fun _ => samplePointLight) altSpotLight rfl⟩

/-- C6: the point-light contribution equals the specification formula
expressed purely in terms of the normalized light direction (so the light's
position enters only through its direction — no distance attenuation), with
ambient and diffuse scaled by the texture or base colour and the specular
term `lightSpecular * pow(max(dot(viewDir, reflectDir), 0), shininess) *
materialSpecular` carrying no texture or base-colour factor. -/
theorem calcPointLight_no_attenuation
    (env : ShaderEnv) (light : PointLight) (normal fragPos viewDir : Vec3)
    (scaled : Vec2) :
    CalcPointLight env light normal fragPos viewDir scaled =
      pointLightSpec env light (normalize3 (light.position - fragPos))
        normal viewDir scaled := by
  cases h : env.bUseTexture <;>
    simp [CalcPointLight, pointLightSpec, surfaceColor, h]

end FragmentShader

namespace FragmentShader

/-- C7: provided the inner cutoff cosine exceeds the outer cutoff cosine, the
spot-light contribution is `attenuation * intensity` times the sum of the
three unattenuated Phong terms (so both factors multiply ambient, diffuse and
specular alike), with
`attenuation = 1 / (constant + linear * dist + quadratic * dist^2)` and
`intensity = clamp((cosTheta - outerCutOff) / (cutOff - outerCutOff), 0, 1)`;
this intensity is 0 at or below the outer cutoff, 1 at or above the inner
cutoff, and the exact linear ramp in between. -/
theorem calcSpotLight_attenuation_and_cone
    (env : ShaderEnv) (light : SpotLight) (normal fragPos viewDir : Vec3)
    (scaled : Vec2) (cosTheta : ℝ)
    (h : light.outerCutOff < light.cutOff) :
    CalcSpotLight env light normal fragPos viewDir scaled =
      (spotAttenuation light (length3 (light.position - fragPos)) *
        spotIntensity light
          (dot3 (normalize3 (light.position - fragPos))
            (normalize3 (-light.direction)))) •
        spotLightBase env light normal fragPos viewDir scaled ∧
    (cosTheta ≤ light.outerCutOff → spotIntensity light cosTheta = 0) ∧
    (light.cutOff ≤ cosTheta → spotIntensity light cosTheta = 1) ∧
    (light.outerCutOff ≤ cosTheta → cosTheta ≤ light.cutOff →
      spotIntensity light cosTheta =
        (cosTheta - light.outerCutOff) /
          (light.cutOff - light.outerCutOff)) := by
  have hd : (0 : ℝ) < light.cutOff - light.outerCutOff := sub_pos.mpr h
  refine ⟨?_, ?_, ?_, ?_⟩
  · cases hT : env.bUseTexture <;>
      simp [CalcSpotLight, spotLightBase, spotAttenuation, spotIntensity,
        surfaceColor, clampGL, hT, pow_two, smul_add, mul_smul]
  · intro hle
    have h1 : (cosTheta - light.outerCutOff) /
        (light.cutOff - light.outerCutOff) ≤ 0 :=
      div_nonpos_iff.mpr (Or.inr ⟨sub_nonpos.mpr hle, hd.le⟩)
    rw [spotIntensity, clampGL, max_eq_right h1]
    exact min_eq_left zero_le_one
  · intro hge
    have h1 : 1 ≤ (cosTheta - light.outerCutOff) /
        (light.cutOff - light.outerCutOff) :=
      (one_le_div hd).mpr (by linarith)
    rw [spotIntensity, clampGL, max_eq_left (le_trans zero_le_one h1)]
    exact min_eq_right h1
  · intro h1 h2
    have hnn : 0 ≤ (cosTheta - light.outerCutOff) /
        (light.cutOff - light.outerCutOff) :=
      div_nonneg (by linarith) hd.le
    have hle1 : (cosTheta - light.outerCutOff) /
        (light.cutOff - light.outerCutOff) ≤ 1 :=
      (div_le_one hd).mpr (by linarith)
    rw [spotIntensity, clampGL, max_eq_left hnn]
    exact min_eq_left hle1

/-- Witness for C7 at `sampleSpotLight` (outer cutoff cosine 1/4, inner 1/2)
and `cosTheta = 1/8`, below the outer cutoff. -/
theorem calcSpotLight_attenuation_and_cone_witness :
    sampleSpotLight.outerCutOff < sampleSpotLight.cutOff ∧
    (CalcSpotLight envNoLighting sampleSpotLight ![0, 1, 0] ![0, 0, 0]
        ![0, 1, 0] ![0, 0] =
      (spotAttenuation sampleSpotLight
          (length3 (sampleSpotLight.position - ![0, 0, 0])) *
        spotIntensity sampleSpotLight
          (dot3 (normalize3 (sampleSpotLight.position - ![0, 0, 0]))
            (normalize3 (-sampleSpotLight.direction)))) •
        spotLightBase envNoLighting sampleSpotLight ![0, 1, 0] ![0, 0, 0]
          ![0, 1, 0] ![0, 0] ∧
    ((1 : ℝ)/8 ≤ sampleSpotLight.outerCutOff →
      spotIntensity sampleSpotLight (1/8) = 0) ∧
    (sampleSpotLight.cutOff ≤ (1 : ℝ)/8 →
      spotIntensity sampleSpotLight (1/8) = 1) ∧
    (sampleSpotLight.outerCutOff ≤ (1 : ℝ)/8 → (1 : ℝ)/8 ≤ sampleSpotLight.cutOff →
      spotIntensity sampleSpotLight (1/8) =
        ((1 : ℝ)/8 - sampleSpotLight.outerCutOff) /
          (sampleSpotLight.cutOff - sampleSpotLight.outerCutOff))) :=
  ⟨by norm_num [sampleSpotLight],
   calcSpotLight_attenuation_and_cone envNoLighting sampleSpotLight
     ![0, 1, 0] ![0, 0, 0] ![0, 1, 0] ![0, 0] (1/8)
     (by norm_num [sampleSpotLight])⟩

end FragmentShader

namespace GlmTransform

open FragmentShader

/-- Helper: normalizing the unit X axis gives it back. -/
theorem normalize3_unitX : normalize3 ![(1 : ℝ), 0, 0] = ![1, 0, 0] := by
  have h : dot3 ![(1 : ℝ), 0, 0] ![1, 0, 0] = 1 := by norm_num [dot3]
  simp [normalize3, length3, h, Real.sqrt_one]

/-- Helper: normalizing the unit Y axis gives it back. -/
theorem normalize3_unitY : normalize3 ![(0 : ℝ), 1, 0] = ![0, 1, 0] := by
  have h : dot3 ![(0 : ℝ), 1, 0] ![0, 1, 0] = 1 := by norm_num [dot3]
  simp [normalize3, length3, h, Real.sqrt_one]

/-- Helper: normalizing the unit Z axis gives it back. -/
theorem normalize3_unitZ : normalize3 ![(0 : ℝ), 0, 1] = ![0, 0, 1] := by
  have h : dot3 ![(0 : ℝ), 0, 1] ![0, 0, 1] = 1 := by norm_num [dot3]
  simp [normalize3, length3, h, Real.sqrt_one]

/-- Helper: glm's axis-angle rotation about the unit X axis is the textbook
X rotation. -/
theorem rotate_unitX (t : ℝ) : rotate t ![1, 0, 0] = rotXSpec t := by
  ext i j
  fin_cases i <;> fin_cases j <;>
    simp [rotate, rotXSpec, normalize3_unitX, Pi.smul_apply, smul_eq_mul]

/-- Helper: glm's axis-angle rotation about the unit Y axis is the textbook
Y rotation. -/
theorem rotate_unitY (t : ℝ) : rotate t ![0, 1, 0] = rotYSpec t := by
  ext i j
  fin_cases i <;> fin_cases j <;>
    simp [rotate, rotYSpec, normalize3_unitY, Pi.smul_apply, smul_eq_mul]

/-- Helper: glm's axis-angle rotation about the unit Z axis is the textbook
Z rotation. -/
theorem rotate_unitZ (t : ℝ) : rotate t ![0, 0, 1] = rotZSpec t := by
  ext i j
  fin_cases i <;> fin_cases j <;>
    simp [rotate, rotZSpec, normalize3_unitZ, Pi.smul_apply, smul_eq_mul]

/-- C4: the model matrix uploaded by `SetTransformations` is exactly
`T * Rz * Ry * Rx * S` — translation outermost, the textbook Z, Y, X axis
rotations in that order, and scale innermost. -/
theorem setTransformations_composed_T_Rz_Ry_Rx_S
    (scaleXYZ : Vec3) (xDeg yDeg zDeg : ℝ) (positionXYZ : Vec3) :
    SetTransformations scaleXYZ xDeg yDeg zDeg positionXYZ =
      specModelMatrix scaleXYZ xDeg yDeg zDeg positionXYZ := by
  simp only [SetTransformations, specModelMatrix, rotate_unitX, rotate_unitY,
    rotate_unitZ]

/-- Helper: glm's rotation by angle 0 is the identity, whatever the axis. -/
theorem rotate_zero_angle (v : Vec3) : rotate 0 v = 1 := by
  ext i j
  fin_cases i <;> fin_cases j <;>
    simp [rotate, Real.cos_zero, Real.sin_zero, Matrix.one_apply,
      Matrix.vecHead, Matrix.vecTail, Pi.smul_apply, smul_eq_mul]

/-- C9: with rotation angles (0,0,0), the model matrix of
`SetTransformations` maps the origin exactly to the translation vector. -/
theorem setTransformations_zero_rotation_maps_origin
    (scaleXYZ positionXYZ : Vec3) :
    (SetTransformations scaleXYZ 0 0 0 positionXYZ).mulVec ![0, 0, 0, 1] =
      ![positionXYZ 0, positionXYZ 1, positionXYZ 2, 1] := by
  have hr : radians 0 = 0 := by simp [radians]
  have hs : (scale scaleXYZ).mulVec ![0, 0, 0, 1] = ![0, 0, 0, 1] := by
    funext i
    fin_cases i <;>
      simp [Matrix.mulVec, Matrix.dotProduct, Fin.sum_univ_four, scale]
  have ht : (translate positionXYZ).mulVec ![0, 0, 0, 1] =
      ![positionXYZ 0, positionXYZ 1, positionXYZ 2, 1] := by
    funext i
    fin_cases i <;>
      simp [Matrix.mulVec, Matrix.dotProduct, Fin.sum_univ_four, translate]
  simp only [SetTransformations, hr, rotate_zero_angle, mul_one]
  rw [← Matrix.mulVec_mulVec, hs, ht]

end GlmTransform
